import Mathlib

/-!
Verification of the PowerNV OPAL flash MTD driver
(`drivers/mtd/devices/powernv_flash.c`).

The driver is embedded shallowly: every firmware primitive the driver
calls (`opal_async_get_token_interruptible`, `opal_flash_read/write/erase`,
`opal_async_wait_response`, `opal_async_release_token`) lives outside the
driver, so a single invocation of the driver is modelled as a pure
function of an *oracle* (`OpalEnv`) recording what each primitive would
return.  The function also emits a trace of the externally visible events
(token acquisition and release, the firmware call issued, the store
through the `retlen` out-parameter), on which the resource-lifecycle
properties are stated.  Pointers (`buf`, `retlen`) are modelled as
`Option`: `none` is the NULL pointer, and for `retlen` the `some` case
carries the pointee cell, returned updated in the result.
-/

/-- Modelled from the spec: the Linux errno `ENOMEM` (out of memory /
resource exhaustion), value 12; defined in `errno.h`, outside `src/`. -/
def ENOMEM : Int := 12

/-- Modelled from the spec: the Linux errno `EIO` (I/O error), value 5;
defined in `errno.h`, outside `src/`.  (The source spells it `EIO`.) -/
def EIO_code : Int := 5

/-- Modelled from the spec: the Linux errno `ERESTARTSYS`, value 512;
`opal_async_get_token_interruptible` (outside `src/`) returns
`-ERESTARTSYS` when token acquisition is interrupted by a pending
process-level signal — the "interrupted indication" of the spec. -/
def ERESTARTSYS : Int := 512

/-- Modelled from the spec: the OPAL status `OPAL_SUCCESS` (value 0),
the designated success completion status; defined in `asm/opal.h`,
outside `src/`. -/
def OPAL_SUCCESS : Int := 0

/-- Modelled from the spec: the OPAL status `OPAL_ASYNC_COMPLETION`
(value 1), the "accepted for asynchronous completion" dispatch return;
defined in `asm/opal.h`, outside `src/`. -/
def OPAL_ASYNC_COMPLETION : Int := 1

/-- The operation selector of the driver (`enum flash_op`). -/
inductive flash_op
  | FLASH_OP_READ
  | FLASH_OP_WRITE
  | FLASH_OP_ERASE
deriving DecidableEq

/-- Oracle for one invocation: the values the OPAL primitives return.
`getTokenResult` is the value of `opal_async_get_token_interruptible()`
(a token `≥ 0`, or a negative errno).  `dispatchResult` is the return
code of the `opal_flash_read/write/erase` call.  `waitResult` is the
return code of `opal_async_wait_response`.  `msgStatus` is the decoded
completion status `be64_to_cpu(msg.params[1])`. -/
structure OpalEnv where
  getTokenResult : Int
  dispatchResult : Int
  waitResult : Int
  msgStatus : Int
deriving DecidableEq

/-- Externally visible events of one `powernv_flash_async_op` run.
The three `call*` events mirror the three firmware entry points: note
that `opal_flash_erase` takes no buffer argument at all, matching the
source. -/
inductive OpalEvent
  | acquireToken (tok : Int)
  | callRead (id : Nat) (offset : Int) (pbuf : Option Nat) (len : Nat) (tok : Int)
  | callWrite (id : Nat) (offset : Int) (pbuf : Option Nat) (len : Nat) (tok : Int)
  | callErase (id : Nat) (offset : Int) (len : Nat) (tok : Int)
  | waitResponse (tok : Int)
  | releaseToken (tok : Int)
  | storeRetlen (v : Nat)
deriving DecidableEq

/-- Is this event a successful token acquisition? -/
def OpalEvent.isAcquire : OpalEvent → Bool
  | .acquireToken _ => true
  | _ => false

/-- Is this event a token release? -/
def OpalEvent.isRelease : OpalEvent → Bool
  | .releaseToken _ => true
  | _ => false

/-- Is this event a store through the `retlen` out-parameter? -/
def OpalEvent.isStoreRetlen : OpalEvent → Bool
  | .storeRetlen _ => true
  | _ => false

/-- Does this event pass a buffer to the firmware?  Only the read and
write firmware calls carry a buffer; `opal_flash_erase` has no buffer
parameter. -/
def OpalEvent.usesBuffer : OpalEvent → Bool
  | .callRead _ _ _ _ _ => true
  | .callWrite _ _ _ _ _ => true
  | _ => false

/-- Result of one `powernv_flash_async_op` run: the C return value, the
final contents of the `retlen` cell (`none` when the pointer is NULL),
and the event trace. -/
structure AsyncOpOut where
  ret : Int
  retlenCell : Option Nat
  trace : List OpalEvent
deriving DecidableEq

/-- Shallow embedding of `powernv_flash_async_op` (the async operation
bridge).  Control flow follows the source line by line:
token acquisition failure returns `-ENOMEM`; a dispatch return other
than `OPAL_ASYNC_COMPLETION` returns `-EIO` (note: the source does NOT
release the token on this path); after the wait the token is released,
a wait failure returns `-EIO`; finally the completion status is decoded:
on `OPAL_SUCCESS` the internal `rc` becomes 0 and `*retlen = len` when
`retlen` is non-NULL, otherwise `rc` becomes `-EIO` — but the source's
final statement is `return 0`, discarding that `rc`, so the completion
path always returns 0. -/
def powernv_flash_async_op (env : OpalEnv) (id : Nat) (op : flash_op)
    (offset : Int) (len : Nat) (retlen : Option Nat) (buf : Option Nat) :
    AsyncOpOut :=
  let token := env.getTokenResult
  if token < 0 then
    { ret := -ENOMEM, retlenCell := retlen, trace := [] }
  else
    let call : OpalEvent :=
      match op with
      | .FLASH_OP_READ => .callRead id offset buf len token
      | .FLASH_OP_WRITE => .callWrite id offset buf len token
      | .FLASH_OP_ERASE => .callErase id offset len token
    let rc := env.dispatchResult
    if rc ≠ OPAL_ASYNC_COMPLETION then
      { ret := -EIO_code, retlenCell := retlen,
        trace := [.acquireToken token, call] }
    else
      let rc2 := env.waitResult
      let tr : List OpalEvent :=
        [.acquireToken token, call, .waitResponse token, .releaseToken token]
      if rc2 ≠ 0 then
        { ret := -EIO_code, retlenCell := retlen, trace := tr }
      else
        let status := env.msgStatus
        if status = OPAL_SUCCESS then
          { ret := 0,
            retlenCell := retlen.map (fun _ => len),
            trace := tr ++ (if retlen.isSome then [.storeRetlen len] else []) }
        else
          -- the source sets rc = -EIO here, but then falls through to
          -- `return 0`, so the returned value is 0 nevertheless
          { ret := 0, retlenCell := retlen, trace := tr }

/-- Shallow embedding of `powernv_flash_read`: delegates unchanged. -/
def powernv_flash_read (env : OpalEnv) (id : Nat) (from_ : Int) (len : Nat)
    (retlen : Option Nat) (buf : Option Nat) : AsyncOpOut :=
  powernv_flash_async_op env id .FLASH_OP_READ from_ len retlen buf

/-- Shallow embedding of `powernv_flash_write`: delegates unchanged. -/
def powernv_flash_write (env : OpalEnv) (id : Nat) (to_ : Int) (len : Nat)
    (retlen : Option Nat) (buf : Option Nat) : AsyncOpOut :=
  powernv_flash_async_op env id .FLASH_OP_WRITE to_ len retlen buf

/-- Modelled from the spec: the MTD erase request states of `mtd.h`
(outside `src/`), following the spec's `PENDING → ERASING → {DONE,
FAILED}` lifecycle. -/
inductive EraseState
  | MTD_ERASE_PENDING
  | MTD_ERASING
  | MTD_ERASE_DONE
  | MTD_ERASE_FAILED
deriving DecidableEq

/-- The fields of `struct erase_info` the driver touches. -/
structure erase_info where
  addr : Int
  len : Nat
  state : EraseState
  fail_addr : Int
deriving DecidableEq

/-- Events of one `powernv_flash_erase` run, in program order:
state stores, the delegation to the bridge (recording the operation and
the `retlen`/`buf` arguments passed), the `fail_addr` store, and the
`mtd_erase_callback` notification. -/
inductive EraseEvent
  | setState (s : EraseState)
  | setFailAddr (a : Int)
  | bridgeCall (op : flash_op) (offset : Int) (len : Nat)
      (retlen : Option Nat) (buf : Option Nat)
  | callback
deriving DecidableEq

/-- Is this event the `mtd_erase_callback` notification? -/
def EraseEvent.isCallback : EraseEvent → Bool
  | .callback => true
  | _ => false

/-- Shallow embedding of `powernv_flash_erase`.  Sets
`erase->state = MTD_ERASING`, delegates to the bridge with
`FLASH_OP_ERASE`, `retlen = NULL`, `buf = NULL`; on a non-zero bridge
return sets `fail_addr = addr` and state `MTD_ERASE_FAILED`, otherwise
state `MTD_ERASE_DONE`; calls `mtd_erase_callback` and returns 0. -/
def powernv_flash_erase (env : OpalEnv) (id : Nat) (erase : erase_info) :
    Int × erase_info × List EraseEvent :=
  let e1 : erase_info := { erase with state := .MTD_ERASING }
  let out := powernv_flash_async_op env id .FLASH_OP_ERASE erase.addr erase.len
      none none
  if out.ret ≠ 0 then
    (0, { e1 with fail_addr := e1.addr, state := .MTD_ERASE_FAILED },
      [.setState .MTD_ERASING,
       .bridgeCall .FLASH_OP_ERASE erase.addr erase.len none none,
       .setFailAddr e1.addr, .setState .MTD_ERASE_FAILED, .callback])
  else
    (0, { e1 with state := .MTD_ERASE_DONE },
      [.setState .MTD_ERASING,
       .bridgeCall .FLASH_OP_ERASE erase.addr erase.len none none,
       .setState .MTD_ERASE_DONE, .callback])

/-- The device-tree properties `powernv_flash_probe` and
`powernv_flash_set_driver_info` look up, each `none` when absent, each
`some` carrying the property's 32-bit cells. -/
structure DeviceTree where
  opal_id : Option (List Nat)
  flash_block_size : Option (List Nat)
  reg : Option (List Nat)
  name : Option (List Nat)
deriving DecidableEq

/-- Modelled from the spec: `of_read_number` of `linux/of.h` (outside
`src/`): reads `size` big-endian 32-bit cells into one number. -/
def of_read_number (cells : List Nat) (size : Nat) : Nat :=
  (cells.take size).foldl (fun acc c => acc * 2 ^ 32 + c) 0

/-- Modelled from the spec: `MTD_NANDFLASH` of `mtd-abi.h` (outside
`src/`), value 4. -/
def MTD_NANDFLASH : Nat := 4

/-- Modelled from the spec: `MTD_CAP_NANDFLASH` of `mtd-abi.h` (outside
`src/`), value 0x400. -/
def MTD_CAP_NANDFLASH : Nat := 1024

/-- The `mtd_info` fields `powernv_flash_set_driver_info` fills (the
operation pointers and module owner, which carry no data, are omitted). -/
structure mtd_geometry where
  name : Option (List Nat)
  mtd_type : Nat
  flags : Nat
  size : Nat
  erasesize : Nat
  writesize : Nat
  writebufsize : Nat
deriving DecidableEq

/-- Outcome of `powernv_flash_set_driver_info`: geometry filled (C
return 0), error (C return 1), or a NULL-pointer dereference crash. -/
inductive SetInfoResult
  | ok (mtd : mtd_geometry)
  | err
  | crash
deriving DecidableEq

/-- Shallow embedding of `powernv_flash_set_driver_info`.  The local
`count` is an uninitialized C stack variable; `of_get_property` writes
it only when the `reg` property exists (when present, `count` is the
property's byte length, 4 per cell).  When `reg` is absent `count`
keeps its indeterminate prior value, modelled by the explicit
`uninitCount` parameter.  The source checks `count / sizeof(__be32) !=
2` without ever checking `reg` for NULL, so when `reg` is absent and
the garbage passes the check, `of_read_number(reg, 2)` dereferences the
NULL pointer: `crash`. -/
def powernv_flash_set_driver_info (dt : DeviceTree) (uninitCount : Nat) :
    SetInfoResult :=
  match dt.flash_block_size with
  | none => .err
  | some erase_size =>
    let count : Nat :=
      match dt.reg with
      | some cells => 4 * cells.length
      | none => uninitCount
    if count / 4 ≠ 2 then .err
    else
      match dt.reg with
      | none => .crash
      | some reg =>
        .ok { name := dt.name, mtd_type := MTD_NANDFLASH,
              flags := MTD_CAP_NANDFLASH,
              size := of_read_number reg 2,
              erasesize := of_read_number erase_size 1,
              writesize := 1, writebufsize := 1 }

/-- Outcome of `powernv_flash_probe`: a return code together with
whether `mtd_device_parse_register` was reached (the device registered),
or a crash propagated from `powernv_flash_set_driver_info`. -/
inductive ProbeOut
  | ret (code : Int) (registered : Bool)
  | crash
deriving DecidableEq

/-- Shallow embedding of `powernv_flash_probe`.  `kzallocFails` models
`devm_kzalloc` returning NULL (return `-ENOMEM`); a missing
`ibm,opal-id` property returns `-EIO`; a failing
`powernv_flash_set_driver_info` returns `-EIO`; otherwise the device is
registered and the probe returns `mtd_device_parse_register`'s result,
modelled by `registerResult`.  (`data->id = of_read_number(prop, 1)` is
the device handle; it does not affect the probe outcome.) -/
def powernv_flash_probe (dt : DeviceTree) (uninitCount : Nat)
    (kzallocFails : Bool) (registerResult : Int) : ProbeOut :=
  if kzallocFails then .ret (-ENOMEM) false
  else
    match dt.opal_id with
    | none => .ret (-EIO_code) false
    | some _prop =>
      match powernv_flash_set_driver_info dt uninitCount with
      | .err => .ret (-EIO_code) false
      | .crash => .crash
      | .ok _ => .ret registerResult true

/-! Concrete oracles used by the per-claim evaluation theorems and
witnesses below. -/

/-- Oracle for claim C1's failing input: a token is acquired (token 0),
but the firmware dispatch returns an error (−1, e.g. `OPAL_PARAMETER`)
instead of `OPAL_ASYNC_COMPLETION`. -/
def envC1rej : OpalEnv :=
  { getTokenResult := 0, dispatchResult := -1, waitResult := 0, msgStatus := 0 }

/-- Oracle where dispatch is accepted but `opal_async_wait_response`
fails: on this path the source does release the token. -/
def envC1wait : OpalEnv :=
  { getTokenResult := 0, dispatchResult := 1, waitResult := -1, msgStatus := 0 }

/-- Oracle for claim C2: dispatch accepted, wait succeeds, but the
decoded completion status is −6 (e.g. `OPAL_HARDWARE`), not
`OPAL_SUCCESS`. -/
def envC2 : OpalEnv :=
  { getTokenResult := 0, dispatchResult := 1, waitResult := 0, msgStatus := -6 }

/-- Oracle for claim C3: `opal_async_get_token_interruptible` returns
`-ERESTARTSYS`, the interrupted indication. -/
def envC3 : OpalEnv :=
  { getTokenResult := -ERESTARTSYS, dispatchResult := 1, waitResult := 0, msgStatus := 0 }

/-- Fully successful oracle: token 0, dispatch accepted, wait succeeds,
completion status `OPAL_SUCCESS`. -/
def envC6 : OpalEnv :=
  { getTokenResult := 0, dispatchResult := 1, waitResult := 0, msgStatus := 0 }

/-- Oracle for claim C7's witness: everything succeeds except the
completion status, which is −6. -/
def envC7 : OpalEnv :=
  { getTokenResult := 0, dispatchResult := 1, waitResult := 0, msgStatus := -6 }

/-- Device tree for claim C8's failing input: `ibm,opal-id` and
`ibm,flash-block-size` present, `reg` absent. -/
def dtC8 : DeviceTree :=
  { opal_id := some [5], flash_block_size := some [65536], reg := none, name := none }

/-- Device tree with `ibm,opal-id` absent. -/
def dtC8_noId : DeviceTree :=
  { opal_id := none, flash_block_size := some [65536], reg := some [0, 100], name := none }

/-- Device tree with `ibm,flash-block-size` absent. -/
def dtC8_noBlock : DeviceTree :=
  { opal_id := some [5], flash_block_size := none, reg := some [0, 100], name := none }

/-- Device tree whose `reg` property has three cells instead of two. -/
def dtC8_badReg : DeviceTree :=
  { opal_id := some [5], flash_block_size := some [65536], reg := some [1, 2, 3], name := none }

/-- Claim C1 (code_bug evaluation).  The claim says an acquired token is
released exactly once on every exit path of `powernv_flash_async_op`,
including the dispatch-rejection path.  At `envC1rej` the token is
acquired (`getTokenResult ≥ 0`) and the dispatch is rejected; the run
returns `-EIO` with one acquisition event and ZERO release events — the
token is leaked, refuting the claim (the source's dispatch-rejection
branch returns without calling `opal_async_release_token`).  On the
wait-failure path (`envC1wait`) the token is released exactly once, so
the leak is specific to the dispatch-rejection path. -/
theorem c1_dispatch_rejection_leaks_token :
    0 ≤ envC1rej.getTokenResult ∧
    envC1rej.dispatchResult ≠ OPAL_ASYNC_COMPLETION ∧
    (powernv_flash_async_op envC1rej 1 .FLASH_OP_READ 0 64 (some 0) (some 7)).ret = -EIO_code ∧
    List.countP OpalEvent.isAcquire
      (powernv_flash_async_op envC1rej 1 .FLASH_OP_READ 0 64 (some 0) (some 7)).trace = 1 ∧
    List.countP OpalEvent.isRelease
      (powernv_flash_async_op envC1rej 1 .FLASH_OP_READ 0 64 (some 0) (some 7)).trace = 0 ∧
    List.countP OpalEvent.isRelease
      (powernv_flash_async_op envC1wait 1 .FLASH_OP_READ 0 64 (some 0) (some 7)).trace = 1 := by
  decide

/-- Claim C2 (code_bug evaluation).  The claim says a decoded completion
status other than `OPAL_SUCCESS` makes `powernv_flash_async_op` return
`-EIO`.  At `envC2` (write of 64 bytes at offset 0x2000, completion
status −6) the function returns 0 — success — not `-EIO`, because the
source computes `rc = -EIO` but its final statement is `return 0`.  The
`retlen` cell is left unchanged. -/
theorem c2_nonsuccess_completion_returns_success :
    envC2.msgStatus ≠ OPAL_SUCCESS ∧
    (powernv_flash_async_op envC2 1 .FLASH_OP_WRITE 8192 64 (some 0) (some 7)).ret = 0 ∧
    (powernv_flash_async_op envC2 1 .FLASH_OP_WRITE 8192 64 (some 0) (some 7)).ret ≠ -EIO_code ∧
    (powernv_flash_async_op envC2 1 .FLASH_OP_WRITE 8192 64 (some 0) (some 7)).retlenCell = some 0 := by
  decide

/-- Claim C3 (counterexample).  The claim says an interrupted token
acquisition fails with an error kind distinct from the out-of-memory /
resource-exhausted code.  At `envC3` the acquire primitive returns the
interrupted indication `-ERESTARTSYS`, yet `powernv_flash_async_op`
returns exactly `-ENOMEM` — the out-of-memory code — so the returned
error is NOT distinct from it, refuting the claim as stated. -/
theorem c3_interrupted_returns_enomem_cex :
    envC3.getTokenResult = -ERESTARTSYS ∧
    (powernv_flash_async_op envC3 1 .FLASH_OP_READ 0 16 (some 0) (some 7)).ret = -ENOMEM ∧
    ¬ (powernv_flash_async_op envC3 1 .FLASH_OP_READ 0 16 (some 0) (some 7)).ret ≠ -ENOMEM := by
  decide

/-- Claim C3 (amended).  If token acquisition fails for any reason —
including interruption by an external cancellation signal — the function
returns `-ENOMEM` (the same code as pool exhaustion) and holds no token:
the trace is empty, so no token was acquired or needs release. -/
theorem c3_acquire_failure_returns_enomem (env : OpalEnv) (id : Nat)
    (op : flash_op) (offset : Int) (len : Nat) (r0 : Option Nat)
    (buf : Option Nat) (h : env.getTokenResult < 0) :
    (powernv_flash_async_op env id op offset len r0 buf).ret = -ENOMEM ∧
    (powernv_flash_async_op env id op offset len r0 buf).trace = [] := by
  simp only [powernv_flash_async_op]
  rw [if_pos h]
  exact ⟨rfl, rfl⟩

/-- Witness for claim C3's amended theorem at the interrupted oracle. -/
theorem c3_acquire_failure_returns_enomem_witness :
    envC3.getTokenResult < 0 ∧
    ((powernv_flash_async_op envC3 1 .FLASH_OP_READ 0 16 (some 0) (some 7)).ret = -ENOMEM ∧
     (powernv_flash_async_op envC3 1 .FLASH_OP_READ 0 16 (some 0) (some 7)).trace = []) :=
  ⟨by decide, c3_acquire_failure_returns_enomem envC3 1 .FLASH_OP_READ 0 16 (some 0) (some 7) (by decide)⟩

/-- Claim C4 (confirmed).  `powernv_flash_erase` first sets the request
state to `MTD_ERASING` and then delegates to the bridge with
`FLASH_OP_ERASE` (the trace starts with exactly those two events); the
final state is `MTD_ERASE_DONE` when the bridge returned 0 and
`MTD_ERASE_FAILED` otherwise, with `fail_addr = addr` recorded exactly
in the failure case (and left untouched on success); and
`mtd_erase_callback` fires exactly once, as the last event before the
function returns. -/
theorem c4_erase_state_machine (env : OpalEnv) (id : Nat) (e : erase_info) :
    (powernv_flash_erase env id e).2.1.state =
      (if (powernv_flash_async_op env id .FLASH_OP_ERASE e.addr e.len none none).ret = 0
       then EraseState.MTD_ERASE_DONE else EraseState.MTD_ERASE_FAILED) ∧
    (powernv_flash_erase env id e).2.1.fail_addr =
      (if (powernv_flash_async_op env id .FLASH_OP_ERASE e.addr e.len none none).ret = 0
       then e.fail_addr else e.addr) ∧
    List.countP EraseEvent.isCallback (powernv_flash_erase env id e).2.2 = 1 ∧
    (powernv_flash_erase env id e).2.2.take 2 =
      [.setState .MTD_ERASING,
       .bridgeCall .FLASH_OP_ERASE e.addr e.len none none] ∧
    (powernv_flash_erase env id e).2.2.getLast? = some .callback := by
  by_cases hrc :
      (powernv_flash_async_op env id .FLASH_OP_ERASE e.addr e.len none none).ret = 0
  · simp only [powernv_flash_erase]
    rw [if_neg (not_not.mpr hrc), if_pos hrc, if_pos hrc]
    refine ⟨rfl, rfl, ?_, rfl, rfl⟩
    simp [List.countP_cons, EraseEvent.isCallback]
  · simp only [powernv_flash_erase]
    rw [if_pos hrc, if_neg hrc, if_neg hrc]
    refine ⟨rfl, rfl, ?_, rfl, rfl⟩
    simp [List.countP_cons, EraseEvent.isCallback]

/-- Claim C5 (confirmed).  For every oracle and every erase request,
the synchronous return value of `powernv_flash_erase` is 0, whether the
delegated bridge call succeeded or failed. -/
theorem c5_erase_always_returns_zero (env : OpalEnv) (id : Nat) (e : erase_info) :
    (powernv_flash_erase env id e).1 = 0 := by
  simp only [powernv_flash_erase]
  split_ifs <;> rfl

/-- Claim C6 (confirmed).  When a token is acquired, dispatch is
accepted, the wait succeeds and the decoded completion status is
`OPAL_SUCCESS`, `powernv_flash_async_op` with a non-NULL `retlen`
returns 0 and stores the requested length `len` through `retlen`. -/
theorem c6_success_status_sets_retlen (env : OpalEnv) (id : Nat)
    (op : flash_op) (offset : Int) (len : Nat) (r0 : Nat) (buf : Option Nat)
    (h1 : 0 ≤ env.getTokenResult)
    (h2 : env.dispatchResult = OPAL_ASYNC_COMPLETION)
    (h3 : env.waitResult = 0)
    (h4 : env.msgStatus = OPAL_SUCCESS) :
    (powernv_flash_async_op env id op offset len (some r0) buf).ret = 0 ∧
    (powernv_flash_async_op env id op offset len (some r0) buf).retlenCell = some len := by
  simp only [powernv_flash_async_op]
  rw [if_neg (by omega), if_neg (by simp [h2]), if_neg (by simp [h3]), if_pos h4]
  exact ⟨rfl, rfl⟩

/-- Witness for claim C6's theorem: a read of 256 bytes at offset
0x1000 under the fully successful oracle returns 0 and sets the
`retlen` cell to 256. -/
theorem c6_success_status_sets_retlen_witness :
    (0 ≤ envC6.getTokenResult ∧ envC6.dispatchResult = OPAL_ASYNC_COMPLETION ∧
     envC6.waitResult = 0 ∧ envC6.msgStatus = OPAL_SUCCESS) ∧
    ((powernv_flash_async_op envC6 1 .FLASH_OP_READ 4096 256 (some 0) (some 7)).ret = 0 ∧
     (powernv_flash_async_op envC6 1 .FLASH_OP_READ 4096 256 (some 0) (some 7)).retlenCell = some 256) :=
  ⟨⟨by decide, by decide, by decide, by decide⟩,
   c6_success_status_sets_retlen envC6 1 .FLASH_OP_READ 4096 256 0 (some 7)
     (by decide) (by decide) (by decide) (by decide)⟩

/-- Claim C7 (confirmed).  On every run that does not reach the
success-status branch — token acquisition failure, dispatch rejection,
wait failure, or a non-`OPAL_SUCCESS` completion status — the `retlen`
cell is left exactly as it was and the trace contains no store through
`retlen`. -/
theorem c7_retlen_unchanged_off_success_path (env : OpalEnv) (id : Nat)
    (op : flash_op) (offset : Int) (len : Nat) (r0 : Option Nat)
    (buf : Option Nat)
    (h : ¬ (0 ≤ env.getTokenResult ∧ env.dispatchResult = OPAL_ASYNC_COMPLETION ∧
            env.waitResult = 0 ∧ env.msgStatus = OPAL_SUCCESS)) :
    (powernv_flash_async_op env id op offset len r0 buf).retlenCell = r0 ∧
    (powernv_flash_async_op env id op offset len r0 buf).trace.all
      (fun ev => !ev.isStoreRetlen) = true := by
  simp only [powernv_flash_async_op]
  split_ifs with h1 h2 h3 h4 h5
  · exact ⟨rfl, rfl⟩
  · exact ⟨rfl, by cases op <;> rfl⟩
  · exact ⟨rfl, by cases op <;> rfl⟩
  · exfalso; push_neg at h1 h2 h3; exact h ⟨h1, h2, h3, h4⟩
  · exfalso; push_neg at h1 h2 h3; exact h ⟨h1, h2, h3, h4⟩
  · exact ⟨rfl, by cases op <;> rfl⟩

/-- Witness for claim C7's theorem: the write scenario of the spec
(offset 0x2000, 64 bytes, non-success status) leaves the `retlen` cell
at its prior value 5. -/
theorem c7_retlen_unchanged_off_success_path_witness :
    (¬ (0 ≤ envC7.getTokenResult ∧ envC7.dispatchResult = OPAL_ASYNC_COMPLETION ∧
        envC7.waitResult = 0 ∧ envC7.msgStatus = OPAL_SUCCESS)) ∧
    ((powernv_flash_async_op envC7 1 .FLASH_OP_WRITE 8192 64 (some 5) (some 7)).retlenCell = some 5 ∧
     (powernv_flash_async_op envC7 1 .FLASH_OP_WRITE 8192 64 (some 5) (some 7)).trace.all
       (fun ev => !ev.isStoreRetlen) = true) :=
  ⟨by decide, c7_retlen_unchanged_off_success_path envC7 1 .FLASH_OP_WRITE 8192 64
     (some 5) (some 7) (by decide)⟩

/-- Claim C8 (code_bug evaluation).  The claim says every missing
startup datum makes `powernv_flash_probe` return an error without
registering the device.  That holds for a missing `ibm,opal-id`, a
missing `ibm,flash-block-size` and a `reg` of the wrong cell count, and
it holds for a missing `reg` when the uninitialized `count` garbage is
not 8 — but when `reg` is absent and the garbage equals 8 (the exact
byte length of two cells), the unchecked NULL `reg` pointer is
dereferenced by `of_read_number`: the probe crashes instead of
returning the error the claim requires. -/
theorem c8_missing_property_probe_outcomes :
    dtC8.reg = none ∧
    powernv_flash_probe dtC8 8 false 0 = ProbeOut.crash ∧
    powernv_flash_probe dtC8 7 false 0 = ProbeOut.ret (-EIO_code) false ∧
    powernv_flash_probe dtC8_noId 0 false 0 = ProbeOut.ret (-EIO_code) false ∧
    powernv_flash_probe dtC8_noBlock 0 false 0 = ProbeOut.ret (-EIO_code) false ∧
    powernv_flash_probe dtC8_badReg 0 false 0 = ProbeOut.ret (-EIO_code) false := by
  decide

/-- Claim C9 (confirmed).  The return value of
`powernv_flash_async_op` always lies in `{0, -ENOMEM, -EIO}`, each of
the three values is attained by some oracle, and the read and write
entry points delegate to the bridge unchanged — so raw firmware
dispatch codes and raw completion statuses never escape as the return
value. -/
theorem c9_return_codes_exactly :
    (∀ (env : OpalEnv) (id : Nat) (op : flash_op) (offset : Int) (len : Nat)
       (r0 : Option Nat) (buf : Option Nat),
       (powernv_flash_async_op env id op offset len r0 buf).ret = 0 ∨
       (powernv_flash_async_op env id op offset len r0 buf).ret = -ENOMEM ∨
       (powernv_flash_async_op env id op offset len r0 buf).ret = -EIO_code) ∧
    (∃ env : OpalEnv,
       (powernv_flash_async_op env 1 .FLASH_OP_READ 0 1 none none).ret = 0) ∧
    (∃ env : OpalEnv,
       (powernv_flash_async_op env 1 .FLASH_OP_READ 0 1 none none).ret = -ENOMEM) ∧
    (∃ env : OpalEnv,
       (powernv_flash_async_op env 1 .FLASH_OP_READ 0 1 none none).ret = -EIO_code) ∧
    (∀ (env : OpalEnv) (id : Nat) (offset : Int) (len : Nat)
       (r0 : Option Nat) (buf : Option Nat),
       powernv_flash_read env id offset len r0 buf =
         powernv_flash_async_op env id .FLASH_OP_READ offset len r0 buf) ∧
    (∀ (env : OpalEnv) (id : Nat) (offset : Int) (len : Nat)
       (r0 : Option Nat) (buf : Option Nat),
       powernv_flash_write env id offset len r0 buf =
         powernv_flash_async_op env id .FLASH_OP_WRITE offset len r0 buf) := by
  refine ⟨?_, ?_, ?_, ?_, fun _ _ _ _ _ _ => rfl, fun _ _ _ _ _ _ => rfl⟩
  · intro env id op offset len r0 buf
    simp only [powernv_flash_async_op]
    split_ifs <;> simp
  · exact ⟨{ getTokenResult := 0, dispatchResult := 1, waitResult := 0, msgStatus := 0 }, by decide⟩
  · exact ⟨{ getTokenResult := -1, dispatchResult := 1, waitResult := 0, msgStatus := 0 }, by decide⟩
  · exact ⟨{ getTokenResult := 0, dispatchResult := 0, waitResult := 0, msgStatus := 0 }, by decide⟩

/-- Claim C10 (confirmed).  With a NULL `retlen` the bridge never
writes through it on any path (the final cell is still NULL and no
store event occurs); and the erase facade invokes the bridge with
`retlen = NULL` and `buf = NULL`, the resulting bridge run touching no
buffer at all (the erase firmware call carries no buffer argument). -/
theorem c10_null_retlen_and_erase_no_buffer :
    (∀ (env : OpalEnv) (id : Nat) (op : flash_op) (offset : Int) (len : Nat)
       (buf : Option Nat),
       (powernv_flash_async_op env id op offset len none buf).retlenCell = none ∧
       (powernv_flash_async_op env id op offset len none buf).trace.all
         (fun ev => !ev.isStoreRetlen) = true) ∧
    (∀ (env : OpalEnv) (id : Nat) (e : erase_info),
       EraseEvent.bridgeCall .FLASH_OP_ERASE e.addr e.len none none ∈
         (powernv_flash_erase env id e).2.2 ∧
       (powernv_flash_async_op env id .FLASH_OP_ERASE e.addr e.len none none).trace.all
         (fun ev => !ev.usesBuffer) = true) := by
  constructor
  · intro env id op offset len buf
    simp only [powernv_flash_async_op]
    split_ifs with h1 h2 h3 h4 h5
    · exact ⟨rfl, rfl⟩
    · exact ⟨rfl, by cases op <;> rfl⟩
    · exact ⟨rfl, by cases op <;> rfl⟩
    · exact absurd h5 (by simp)
    · exact ⟨rfl, by cases op <;> rfl⟩
    · exact ⟨rfl, by cases op <;> rfl⟩
  · intro env id e
    constructor
    · simp only [powernv_flash_erase]
      split_ifs <;> simp
    · simp only [powernv_flash_async_op]
      split_ifs with h1 h2 h3 h4 h5
      · rfl
      · rfl
      · rfl
      · exact absurd h5 (by simp)
      · rfl
      · rfl
